import Mathlib

/-
  Verification development for the destination-resolution pipeline of
  src/src/App.js (a React travel-search frontend).

  The pipeline code is shallowly embedded: the network services (Nominatim
  geocoding and the Overpass point-of-interest API) are passed in as explicit
  oracles, and the React state updates (setDestinations, setCategories,
  setTotalPages) become an explicit state record threaded through the
  orchestrator.  JavaScript truthiness of the `||` operator is modelled
  exactly: an absent property, the empty string and the number 0 are falsy.
  Coordinate numbers are modelled as integers, since the code never performs
  arithmetic on them (they are only copied and tested for truthiness).
-/

namespace TravelApp

/-- JavaScript `String.prototype.trim`: strip leading and trailing
whitespace.  Modelled directly on the character list. -/
def jsTrim (s : String) : String :=
  String.mk (((s.toList.dropWhile Char.isWhitespace).reverse.dropWhile
    Char.isWhitespace).reverse)

/-- One record of the Nominatim geocoding response array
(`response.data[i]`); `lat` and `lon` are strings in the wire format. -/
structure GeoHit where
  lat : String
  lon : String
deriving DecidableEq, Repr

/-- The nested `center` coordinate of an aggregated Overpass element. -/
structure Center where
  lat : Int
  lon : Int
deriving DecidableEq, Repr

/-- An Overpass raw element: `{ id, lat?, lon?, center?, tags }`.
The tag mapping is an association list (JavaScript object, no duplicate
keys assumed); an absent property is `none`. -/
structure RawElement where
  id : Int
  tags : List (String × String)
  lat : Option Int
  lon : Option Int
  center : Option Center
deriving DecidableEq, Repr

/-- JavaScript property access `element.tags[k]`: `some v` when the key is
present, `none` when absent. -/
def lookupTag (tags : List (String × String)) (k : String) : Option String :=
  (tags.find? (fun p => p.1 == k)).map (fun p => p.2)

/-- JavaScript `a || b` where `a` is an optional string property and the
result is again optional: an absent property and the empty string are
falsy. -/
def jsOr (a b : Option String) : Option String :=
  match a with
  | some v => if v = "" then b else some v
  | none => b

/-- JavaScript `a || b` where `a` is an optional string property and `b` is
a string literal default. -/
def jsOrString (a : Option String) (b : String) : String :=
  match a with
  | some v => if v = "" then b else v
  | none => b

/-- JavaScript `a || b` where `a` is an optional numeric property: an
absent property, 0 (and NaN, not modelled) are falsy. -/
def jsOrNum (a b : Option Int) : Option Int :=
  match a with
  | some v => if v = 0 then b else some v
  | none => b

/-- The `geoCode` field of a formatted destination. -/
structure GeoCode where
  latitude : Option Int
  longitude : Option Int
deriving DecidableEq, Repr

/-- The stable domain shape produced by the normalization step of
`fetchDestinations` (App.js lines 79-90). -/
structure Destination where
  id : Int
  name : String
  category : String
  geoCode : GeoCode
  tags : List String
  distance : Option Int
  rating : Option Int
deriving DecidableEq, Repr

/-- The per-element mapping of App.js lines 79-90:
`name = element.tags.name || 'Unknown'`;
`category = element.tags.tourism || element.tags.historic ||
element.tags.leisure || element.tags.amenity || 'Unknown'`;
`geoCode.latitude = element.lat || (element.center ? element.center.lat :
null)` and symmetrically for longitude;
`tags = Object.keys(element.tags)`; `distance = null`; `rating = null`. -/
def formatDestination (e : RawElement) : Destination where
  id := e.id
  name := jsOrString (lookupTag (e.tags) ("name")) "Unknown"
  category :=
    jsOrString
      (jsOr (jsOr (jsOr (lookupTag (e.tags) ("tourism"))
        (lookupTag (e.tags) ("historic"))) (lookupTag (e.tags) ("leisure")))
        (lookupTag (e.tags) ("amenity"))) "Unknown"
  geoCode :=
    ⟨jsOrNum e.lat (e.center.map Center.lat),
     jsOrNum e.lon (e.center.map Center.lon)⟩
  tags := e.tags.map Prod.fst
  distance := none
  rating := none

/-- `data.map(element => ({...}))`: the ResultNormalizer. -/
def normalize (es : List RawElement) : List Destination :=
  es.map formatDestination

/-- The amenity values excluded by the regex filter of the Overpass query
(App.js line 65), in source order. -/
def amenityDenylist : List String :=
  ["school", "bank", "bicycle_parking", "waste_basket", "university",
   "hospital", "parking", "fuel", "ferry_terminal", "post_office",
   "library", "clinic", "post_box", "place_of_worship", "police"]

/-- The regex text of the amenity exclusion filter: the denylist values
joined by the regex alternation bar. -/
def amenityExclusionRegex : String := String.intercalate ("|") amenityDenylist

/-- The amenity exclusion clause of the query (App.js line 65):
`["amenity"!~"school|bank|...|police"]`. -/
def amenityExclusionClause : String :=
  "[\"amenity\"!~\"" ++ amenityExclusionRegex ++ "\"]"

/-- The Overpass query template literal of App.js lines 58-68, with the
`lat` and `lon` strings interpolated exactly where the source interpolates
them. -/
def overpassQuery (lat lon : String) : String :=
  "\n        [out:json][timeout:60];\n        (\n          node(around:50000,"
  ++ lat ++ "," ++ lon
  ++ ")[\"tourism\"];\n          node(around:50000,"
  ++ lat ++ "," ++ lon
  ++ ")[\"historic\"];\n          node(around:50000,"
  ++ lat ++ "," ++ lon
  ++ ")[\"leisure\"];\n          node(around:50000,"
  ++ lat ++ "," ++ lon
  ++ ")[\"amenity\"]\n            "
  ++ amenityExclusionClause
  ++ ";\n        );\n        out center 20;\n      "

/-- Contiguous-subsequence test on character lists, used to model
unanchored regex matching of a literal pattern. -/
def listContainsSeq (needle : List Char) : List Char → Bool
  | [] => needle.isEmpty
  | c :: rest => needle.isPrefixOf (c :: rest) || listContainsSeq needle rest

/-- Unanchored matching of the denylist alternation regex against an
amenity value: the value matches iff some denylist literal occurs in it as
a contiguous substring. -/
def regexAltMatches (v : String) : Bool :=
  amenityDenylist.any (fun d => listContainsSeq d.toList v.toList)

/-- Acceptance semantics of the tag filters of the built query under
Overpass QL: the query is a union of four node selectors, so an element is
accepted iff it carries a tourism, historic or leisure tag, or carries an
amenity tag whose value does not match the exclusion regex.  (The spatial
`around` constraint and the result cap are not part of the tag filter and
are not modelled here.) -/
def queryAccepts (e : RawElement) : Bool :=
  (lookupTag (e.tags) ("tourism")).isSome ||
  (lookupTag (e.tags) ("historic")).isSome ||
  (lookupTag (e.tags) ("leisure")).isSome ||
  (match lookupTag (e.tags) ("amenity") with
   | some v => !(regexAltMatches v)
   | none => false)

/-- Observable trace of one `fetchDataWithRetry` run: the returned element
list (`none` when the final `throw` of App.js line 118 fires), the number
of service attempts performed, the number of failed attempts logged by
`console.error` (line 112), and the list of waits performed (line 114),
each entry being the milliseconds waited. -/
structure RetryTrace where
  result : Option (List RawElement)
  attempts : Nat
  failures : Nat
  delays : List Nat
deriving DecidableEq, Repr

/-- The retry loop of App.js lines 104-117: `r` attempts remain and the
next attempt has index `i`.  On success the element list is returned at
once; on failure the attempt is logged and, when further attempts remain
(`i < retries - 1` in the source, here `0 < r`), one `delay` wait is
performed before continuing. -/
def retryGo (service : Nat → Option (List RawElement)) (delay : Nat) :
    Nat → Nat → RetryTrace
  | 0, _ => ⟨none, 0, 0, []⟩
  | r + 1, i =>
    match service i with
    | some elems => ⟨some elems, 1, 0, []⟩
    | none =>
      let rest := retryGo service delay r (i + 1)
      ⟨rest.result, rest.attempts + 1, rest.failures + 1,
        if 0 < r then delay :: rest.delays else rest.delays⟩

/-- `fetchDataWithRetry(query, retries, delay)` of App.js lines 103-119.
The service oracle maps the attempt index to `some elements` (a successful
response) or `none` (a thrown request error). -/
def fetchDataWithRetry (service : Nat → Option (List RawElement))
    (retries delay : Nat) : RetryTrace :=
  retryGo service delay retries 0

/-- `fetchCityCoordinates` of App.js lines 20-40 with the geocoding
response as an explicit oracle: a transport error (`Except.error`) and the
zero-match response both end in the catch block and return `null`;
otherwise the lat/lon of the first hit is returned. -/
def fetchCityCoordinates (geo : Except String (List GeoHit)) : Option GeoHit :=
  match geo with
  | Except.error _ => none
  | Except.ok [] => none
  | Except.ok (h :: _) => some h

/-- The two network oracles of one resolution: the geocoding response and,
for each query text and attempt index, the Overpass response. -/
structure Services where
  geo : Except String (List GeoHit)
  overpass : String → Nat → Option (List RawElement)

/-- The React state touched by `fetchDestinations`: `destinations`,
`categories` and `totalPages` (the `loading` flag is presentation-only and
not modelled). -/
structure AppState where
  destinations : List Destination
  categories : List String
  totalPages : Nat
deriving DecidableEq, Repr

/-- `[...new Set(list)]`: deduplication keeping the first occurrence of
each value, in insertion order. -/
def jsNewSetGo : List String → List String → List String
  | [], _ => []
  | a :: l, seen =>
    if a ∈ seen then jsNewSetGo l seen else a :: jsNewSetGo l (a :: seen)

/-- `[...new Set(list)]` over a string list. -/
def jsNewSet (l : List String) : List String := jsNewSetGo l []

/-- `cardsPerPage` constant of App.js line 17. -/
def cardsPerPage : Nat := 21

/-- `Math.ceil(n / m)` for natural `n` and positive `m`. -/
def jsMathCeilDiv (n m : Nat) : Nat := (n + m - 1) / m

/-- Everything observable about one `fetchDestinations` call: the state
after the call, the formatted destination list the call produced (`[]` on
every early return or caught failure), and the number of outbound calls
made to each of the two services. -/
structure ResolveOutcome where
  state : AppState
  result : List Destination
  geoCalls : Nat
  overpassCalls : Nat
deriving DecidableEq, Repr

/-- `fetchDestinations` of App.js lines 43-100, as a state transformer
over the explicit service oracles.  Blank input returns before any network
call; a `null` from `fetchCityCoordinates` returns after the one geocoding
call; a throw from `fetchDataWithRetry` is caught by the surrounding
try/catch leaving the state untouched; an empty element list also returns
early; otherwise the formatted list is stored together with its category
set and page count. -/
def fetchDestinations (city : String) (svc : Services) (st : AppState) :
    ResolveOutcome :=
  if jsTrim city = "" then ⟨st, [], 0, 0⟩
  else
    match fetchCityCoordinates svc.geo with
    | none => ⟨st, [], 1, 0⟩
    | some hit =>
      let t := fetchDataWithRetry
        (svc.overpass (overpassQuery hit.lat hit.lon)) 3 5000
      match t.result with
      | none => ⟨st, [], 1, t.attempts⟩
      | some data =>
        if data.length = 0 then ⟨st, [], 1, t.attempts⟩
        else
          let formatted := normalize data
          ⟨⟨formatted, jsNewSet (formatted.map Destination.category),
            jsMathCeilDiv formatted.length cardsPerPage⟩,
           formatted, 1, t.attempts⟩

/-- The category derivation in the words of the specification: the first
value among the given optional tag values that is present and non-empty. -/
def specFirstNonEmpty : List (Option String) → Option String
  | [] => none
  | some v :: rest => if v = "" then specFirstNonEmpty rest else some v
  | none :: rest => specFirstNonEmpty rest

/-- The specified category of a tag mapping: first non-empty of
tourism, historic, leisure, amenity, else "Unknown". -/
def specCategory (tags : List (String × String)) : String :=
  (specFirstNonEmpty [lookupTag tags ("tourism"), lookupTag tags ("historic"),
    lookupTag tags ("leisure"), lookupTag tags ("amenity")]).getD ("Unknown")

/-- A concrete geocoding hit used in the concrete-run theorems. -/
def parisHit : GeoHit := ⟨"48.8589", "2.3470"⟩

/-- A concrete raw element with a name and a tourism tag. -/
def louvreElement : RawElement :=
  ⟨1, [("name", "Louvre"), ("tourism", "museum")], some 48, some 2, none⟩

/-- Concrete services: geocoding finds one hit and every Overpass attempt
succeeds with one element. -/
def parisServices : Services :=
  ⟨Except.ok [parisHit], fun _ _ => some [louvreElement]⟩

/-- The initial React state (`useState([])`, `useState([])`,
`useState(1)`). -/
def initialState : AppState := ⟨[], [], 1⟩

/-- A raw element tagged both tourism and amenity. -/
def museumCafeElement : RawElement :=
  ⟨2, [("tourism", "museum"), ("amenity", "cafe")], some 5, some 6, none⟩

/-- A raw element whose own latitude is 0 (present but falsy in
JavaScript) and which also carries a center coordinate. -/
def equatorElement : RawElement :=
  ⟨3, [("name", "Zero Island")], some 0, some 20, some ⟨10, 25⟩⟩

/-- A raw element tagged only `amenity: "bank"`. -/
def bankOnlyElement : RawElement := ⟨4, [("amenity", "bank")], some 7, some 8, none⟩

/-- Concrete services whose geocoding response is the zero-match array. -/
def noMatchServices : Services := ⟨Except.ok [], fun _ _ => none⟩

/-- Concrete services: geocoding succeeds but every Overpass attempt
fails. -/
def failingOverpassServices : Services := ⟨Except.ok [parisHit], fun _ _ => none⟩

/-- A concrete Overpass attempt oracle that fails on attempts 0 and 1 and
succeeds on attempt 2. -/
def failTwiceService : Nat → Option (List RawElement) :=
  fun i => if i = 2 then some [louvreElement] else none

/-- A raw element with no tags, no coordinates and no center. -/
def bareElement : RawElement := ⟨9, [], none, none, none⟩

/-- Blank input returns before any state update or network call. -/
lemma fetchDestinations_blank (city : String) (svc : Services) (st : AppState)
    (hb : jsTrim city = "") : fetchDestinations city svc st = ⟨st, [], 0, 0⟩ := by
  simp [fetchDestinations, hb]

/-- A null from fetchCityCoordinates aborts the resolution after the one
geocoding call. -/
lemma fetchDestinations_geo_none (city : String) (svc : Services) (st : AppState)
    (hb : ¬ jsTrim city = "") (hg : fetchCityCoordinates svc.geo = none) :
    fetchDestinations city svc st = ⟨st, [], 1, 0⟩ := by
  simp [fetchDestinations, hb, hg]

/-- The produced result and the network-call counts of a resolution do not
depend on the state the component held before the call. -/
lemma fetchDestinations_state_free (city : String) (svc : Services)
    (st st' : AppState) :
    (fetchDestinations city svc st').result = (fetchDestinations city svc st).result ∧
    (fetchDestinations city svc st').geoCalls = (fetchDestinations city svc st).geoCalls ∧
    (fetchDestinations city svc st').overpassCalls =
      (fetchDestinations city svc st).overpassCalls := by
  unfold fetchDestinations
  by_cases hb : jsTrim city = ""
  · simp [hb]
  · simp only [hb, if_false]
    cases hg : fetchCityCoordinates svc.geo with
    | none => simp
    | some hit =>
      cases ht : (fetchDataWithRetry (svc.overpass (overpassQuery hit.lat hit.lon))
          3 5000).result with
      | none => simp [ht]
      | some data =>
        by_cases hd : data.length = 0 <;> simp [ht, hd]

/-- A resolution that produced a non-empty result necessarily performed its
one geocoding call. -/
lemma fetchDestinations_geoCalls_of_result_ne (city : String) (svc : Services)
    (st : AppState) (h : (fetchDestinations city svc st).result ≠ []) :
    (fetchDestinations city svc st).geoCalls = 1 := by
  unfold fetchDestinations at *
  by_cases hb : jsTrim city = ""
  · simp [hb] at h
  · simp only [hb, if_false] at *
    cases hg : fetchCityCoordinates svc.geo with
    | none => simp [hg] at h ⊢
    | some hit =>
      simp only [hg] at h ⊢
      cases ht : (fetchDataWithRetry (svc.overpass (overpassQuery hit.lat hit.lon))
          3 5000).result with
      | none => simp [ht] at h ⊢
      | some data =>
        by_cases hd : data.length = 0 <;> simp [ht, hd] at h ⊢

/-- The JavaScript truthiness chain of the category derivation computes
the first present-and-non-empty value with a final default. -/
lemma jsOr_chain_eq_spec (t h l a : Option String) :
    jsOrString (jsOr (jsOr (jsOr t h) l) a) "Unknown" =
    (specFirstNonEmpty [t, h, l, a]).getD ("Unknown") := by
  rcases t with _ | vt <;> rcases h with _ | vh <;>
    rcases l with _ | vl <;> rcases a with _ | va <;>
    simp [jsOr, jsOrString, specFirstNonEmpty] <;>
    split_ifs <;> simp_all [specFirstNonEmpty]

/-- Claim C1, counterexample to the claim as stated: with services that
resolve the city successfully, a first call on the initial state succeeds
with a non-empty result, and a second call with the exact same string
returns a deep-equal array but performs 2 outbound network calls (one
geocoding call and one spatial-query attempt), not zero: the code keeps no
cache, so nothing short-circuits the pipeline. -/
theorem resolve_second_call_performs_network_calls :
    (fetchDestinations ("Paris") parisServices initialState).result ≠ [] ∧
    (fetchDestinations ("Paris") parisServices
        (fetchDestinations ("Paris") parisServices initialState).state).result =
      (fetchDestinations ("Paris") parisServices initialState).result ∧
    (fetchDestinations ("Paris") parisServices
        (fetchDestinations ("Paris") parisServices initialState).state).geoCalls +
      (fetchDestinations ("Paris") parisServices
        (fetchDestinations ("Paris") parisServices initialState).state).overpassCalls
      = 2 := by
  refine ⟨by decide, by decide, by decide⟩

/-- Claim C1, amended: for every city string and service behavior, a
second call to resolve with the exact same string and the same service
responses returns a Destination array deep-equal to the first call result
(the pipeline is deterministic and independent of the stored state), but
it repeats the outbound network calls of the first call; in particular,
after a successful first resolution the second call still contacts the
geocoding service instead of being short-circuited by a cache. -/
theorem resolve_repeat_same_result_same_network_calls (city : String)
    (svc : Services) (st st' : AppState) :
    (fetchDestinations city svc st').result = (fetchDestinations city svc st).result ∧
    (fetchDestinations city svc st').geoCalls = (fetchDestinations city svc st).geoCalls ∧
    (fetchDestinations city svc st').overpassCalls =
      (fetchDestinations city svc st).overpassCalls ∧
    ((fetchDestinations city svc st).result ≠ [] →
      (fetchDestinations city svc st').geoCalls ≠ 0) := by
  obtain ⟨h1, h2, h3⟩ := fetchDestinations_state_free city svc st st'
  refine ⟨h1, h2, h3, fun h => ?_⟩
  rw [h2, fetchDestinations_geoCalls_of_result_ne city svc st h]
  norm_num

/-- Witness for the amended claim C1 at the concrete Paris services. -/
theorem resolve_repeat_witness :
    (fetchDestinations ("Paris") parisServices
      (fetchDestinations ("Paris") parisServices initialState).state).geoCalls ≠ 0 :=
  (resolve_repeat_same_result_same_network_calls ("Paris") parisServices initialState
    (fetchDestinations ("Paris") parisServices initialState).state).2.2.2 (by decide)

/-- Claim C2: when geocoding returns zero matches for a non-blank city,
the resolution yields an empty result, makes no spatial-query attempt, and
leaves the state unchanged. -/
theorem resolve_geocode_zero_matches_empty_no_spatial_call (city : String)
    (svc : Services) (st : AppState)
    (hb : jsTrim city ≠ "") (hg : svc.geo = Except.ok []) :
    (fetchDestinations city svc st).result = [] ∧
    (fetchDestinations city svc st).overpassCalls = 0 ∧
    (fetchDestinations city svc st).state = st := by
  have hnone : fetchCityCoordinates svc.geo = none := by
    rw [hg]
    rfl
  rw [fetchDestinations_geo_none city svc st hb hnone]
  exact ⟨rfl, rfl, rfl⟩

/-- Witness for claim C2 at a concrete city and zero-match services. -/
theorem resolve_geocode_zero_matches_witness :
    (fetchDestinations ("Paris") noMatchServices initialState).result = [] ∧
    (fetchDestinations ("Paris") noMatchServices initialState).overpassCalls = 0 ∧
    (fetchDestinations ("Paris") noMatchServices initialState).state = initialState :=
  resolve_geocode_zero_matches_empty_no_spatial_call ("Paris") noMatchServices
    initialState (by decide) rfl

/-- Claim C3: a blank (empty or whitespace-only) city string returns
immediately with an empty result, zero network calls to either service,
and an unchanged state. -/
theorem resolve_blank_city_no_calls (city : String) (svc : Services)
    (st : AppState) (hb : jsTrim city = "") :
    fetchDestinations city svc st = ⟨st, [], 0, 0⟩ :=
  fetchDestinations_blank city svc st hb

/-- Witness for claim C3 at a whitespace-only input. -/
theorem resolve_blank_city_witness :
    fetchDestinations ("   ") parisServices initialState = ⟨initialState, [], 0, 0⟩ :=
  resolve_blank_city_no_calls ("   ") parisServices initialState (by decide)

/-- Claim C4: with maxAttempts = 3, the retrying fetcher ends in the
exhausted-retries throw with exactly 3 attempts performed when every
attempt fails, and it ends in that throw only when all 3 attempts have
failed. -/
theorem retry_exhausts_after_three_attempts_iff_all_fail
    (service : Nat → Option (List RawElement)) (delay : Nat) :
    ((∀ i, i < 3 → service i = none) →
      (fetchDataWithRetry service 3 delay).result = none ∧
      (fetchDataWithRetry service 3 delay).attempts = 3) ∧
    ((fetchDataWithRetry service 3 delay).result = none →
      ∀ i, i < 3 → service i = none) := by
  constructor
  · intro h
    have h0 := h 0 (by norm_num)
    have h1 := h 1 (by norm_num)
    have h2 := h 2 (by norm_num)
    simp [fetchDataWithRetry, retryGo, h0, h1, h2]
  · intro h i hi
    rcases h0 : service 0 with _ | e0
    · rcases h1 : service 1 with _ | e1
      · rcases h2 : service 2 with _ | e2
        · interval_cases i <;> assumption
        · simp [fetchDataWithRetry, retryGo, h0, h1, h2] at h
      · simp [fetchDataWithRetry, retryGo, h0, h1] at h
    · simp [fetchDataWithRetry, retryGo, h0] at h

/-- Witness for claim C4 at an always-failing service. -/
theorem retry_exhausts_witness :
    (fetchDataWithRetry (fun _ => none) 3 5000).result = none ∧
    (fetchDataWithRetry (fun _ => none) 3 5000).attempts = 3 :=
  (retry_exhausts_after_three_attempts_iff_all_fail (fun _ => none) 5000).1
    (fun _ _ => rfl)

/-- Claim C5: when the first two attempts fail and the third succeeds
(maxAttempts = 3), the retrying fetcher returns the third attempt element
list after exactly 3 attempts, 2 recorded failures and 2 constant waits of
the configured delay each. -/
theorem retry_two_failures_then_success
    (service : Nat → Option (List RawElement)) (delay : Nat)
    (es : List RawElement)
    (h0 : service 0 = none) (h1 : service 1 = none) (h2 : service 2 = some es) :
    fetchDataWithRetry service 3 delay = ⟨some es, 3, 2, [delay, delay]⟩ := by
  simp [fetchDataWithRetry, retryGo, h0, h1, h2]

/-- Witness for claim C5 at a concrete fail-twice service. -/
theorem retry_two_failures_then_success_witness :
    fetchDataWithRetry failTwiceService 3 5000 =
      ⟨some [louvreElement], 3, 2, [5000, 5000]⟩ :=
  retry_two_failures_then_success failTwiceService 5000 [louvreElement]
    rfl rfl rfl

/-- Claim C6: the normalized category agrees with the specification
function taking the first non-empty value among the tourism, historic,
leisure and amenity tags in that priority order with default Unknown; in
particular a non-empty tourism tag always wins. -/
theorem category_first_non_empty_priority (e : RawElement) :
    (formatDestination e).category = specCategory e.tags ∧
    (∀ v, lookupTag (e.tags) ("tourism") = some v → v ≠ "" →
      (formatDestination e).category = v) := by
  constructor
  · simpa [formatDestination, specCategory] using
      jsOr_chain_eq_spec (lookupTag (e.tags) ("tourism"))
        (lookupTag (e.tags) ("historic")) (lookupTag (e.tags) ("leisure"))
        (lookupTag (e.tags) ("amenity"))
  · intro v hv hne
    simp [formatDestination, jsOr, jsOrString, hv, hne]

/-- Witness for claim C6: tourism wins over amenity on the concrete
museum-plus-cafe element. -/
theorem category_first_non_empty_witness :
    (formatDestination museumCafeElement).category = "museum" :=
  (category_first_non_empty_priority museumCafeElement).2 ("museum") rfl
    (by decide)

/-- Claim C7, counterexample to the claim as stated: the concrete element
carries its own latitude 0 (the field is present), yet the normalized
latitude is the center latitude 10, so the fallback is not decided by
presence of the fields alone. -/
theorem geoCode_zero_latitude_falls_through :
    equatorElement.lat = some 0 ∧
    (formatDestination equatorElement).geoCode.latitude = some 10 ∧
    (formatDestination equatorElement).geoCode.latitude ≠ equatorElement.lat := by
  refine ⟨rfl, rfl, by decide⟩

/-- Claim C7, amended: the normalized geoCode uses the element own lat/lon
when present and non-zero; a present value 0 is falsy under the JavaScript
or-operator and falls through, like an absent field, to the center
coordinate when the center is present and to null otherwise. -/
theorem geoCode_truthiness_fallback (e : RawElement) :
    (∀ v, e.lat = some v → v ≠ 0 →
      (formatDestination e).geoCode.latitude = some v) ∧
    ((e.lat = none ∨ e.lat = some 0) →
      (formatDestination e).geoCode.latitude = e.center.map Center.lat) ∧
    (∀ v, e.lon = some v → v ≠ 0 →
      (formatDestination e).geoCode.longitude = some v) ∧
    ((e.lon = none ∨ e.lon = some 0) →
      (formatDestination e).geoCode.longitude = e.center.map Center.lon) := by
  refine ⟨fun v hv hne => ?_, fun hv => ?_, fun v hv hne => ?_, fun hv => ?_⟩
  · simp [formatDestination, jsOrNum, hv, hne]
  · rcases hv with hv | hv <;> simp [formatDestination, jsOrNum, hv]
  · simp [formatDestination, jsOrNum, hv, hne]
  · rcases hv with hv | hv <;> simp [formatDestination, jsOrNum, hv]

/-- Witness for the amended claim C7: a non-zero own latitude is kept and
a zero own latitude falls through to the center. -/
theorem geoCode_truthiness_fallback_witness :
    (formatDestination louvreElement).geoCode.latitude = some 48 ∧
    (formatDestination equatorElement).geoCode.latitude = some 10 :=
  ⟨(geoCode_truthiness_fallback louvreElement).1 48 rfl (by decide),
   by rw [(geoCode_truthiness_fallback equatorElement).2.1 (Or.inr rfl)]; rfl⟩

/-- Claim C8: the normalizer is total, maps every input element in order,
and degrades each absent field to its documented default: name Unknown
when the name tag is absent, null coordinates when neither own nor center
coordinates exist, and always-null distance and rating. -/
theorem normalize_total_with_defaults (es : List RawElement) (e : RawElement) :
    (normalize es).length = es.length ∧
    (∀ i : Nat, (normalize es)[i]? = (es[i]?).map formatDestination) ∧
    (lookupTag (e.tags) ("name") = none → (formatDestination e).name = "Unknown") ∧
    (e.lat = none → e.center = none →
      (formatDestination e).geoCode.latitude = none) ∧
    (e.lon = none → e.center = none →
      (formatDestination e).geoCode.longitude = none) ∧
    (formatDestination e).distance = none ∧
    (formatDestination e).rating = none := by
  refine ⟨by simp [normalize], fun i => by simp [normalize, List.getElem?_map],
    fun hn => ?_, fun h1 h2 => ?_, fun h1 h2 => ?_, rfl, rfl⟩
  · simp [formatDestination, jsOrString, hn]
  · simp [formatDestination, jsOrNum, h1, h2]
  · simp [formatDestination, jsOrNum, h1, h2]

/-- Witness for claim C8 at the element with no tags and no coordinates. -/
theorem normalize_total_with_defaults_witness :
    (normalize [bareElement]).length = 1 ∧
    (formatDestination bareElement).name = "Unknown" ∧
    (formatDestination bareElement).geoCode.latitude = none ∧
    (formatDestination bareElement).distance = none := by
  obtain ⟨h1, h2, h3, h4, h5, h6, h7⟩ :=
    normalize_total_with_defaults [bareElement] bareElement
  exact ⟨h1, h3 rfl, h4 rfl rfl, h6⟩

/-- Claim C9: for every coordinate the built query contains the amenity
exclusion clause, the literal bank is one of the excluded amenity values
and occurs in the clause text, and an element tagged only amenity bank is
not in the accepted set of the query tag filters. -/
theorem overpass_query_excludes_bank (lat lon : String) :
    "bank" ∈ amenityDenylist ∧
    (∃ pre post, overpassQuery lat lon = pre ++ amenityExclusionClause ++ post) ∧
    listContainsSeq (("bank").toList) (amenityExclusionClause.toList) = true ∧
    queryAccepts bankOnlyElement = false := by
  refine ⟨by decide, ?_, by decide, by decide⟩
  exact ⟨"\n        [out:json][timeout:60];\n        (\n          node(around:50000,"
    ++ lat ++ "," ++ lon
    ++ ")[\"tourism\"];\n          node(around:50000,"
    ++ lat ++ "," ++ lon
    ++ ")[\"historic\"];\n          node(around:50000,"
    ++ lat ++ "," ++ lon
    ++ ")[\"leisure\"];\n          node(around:50000,"
    ++ lat ++ "," ++ lon
    ++ ")[\"amenity\"]\n            ",
    ";\n        );\n        out center 20;\n      ", rfl⟩

/-- Claim C10: every failure or empty outcome of a resolution (blank
input, failed geocoding, exhausted retries, or an empty fetched element
list) leaves the stored destinations, categories and page count unchanged;
only a successful resolution with at least one element overwrites them,
with the normalized list, its category set and its page count. -/
theorem failed_resolution_preserves_state (city : String) (svc : Services)
    (st : AppState) :
    (jsTrim city = "" → (fetchDestinations city svc st).state = st) ∧
    (fetchCityCoordinates svc.geo = none →
      (fetchDestinations city svc st).state = st) ∧
    (∀ hit, fetchCityCoordinates svc.geo = some hit →
      (fetchDataWithRetry (svc.overpass (overpassQuery hit.lat hit.lon))
        3 5000).result = none →
      (fetchDestinations city svc st).state = st) ∧
    (∀ hit, fetchCityCoordinates svc.geo = some hit →
      (fetchDataWithRetry (svc.overpass (overpassQuery hit.lat hit.lon))
        3 5000).result = some [] →
      (fetchDestinations city svc st).state = st) ∧
    (∀ hit data, jsTrim city ≠ "" → fetchCityCoordinates svc.geo = some hit →
      (fetchDataWithRetry (svc.overpass (overpassQuery hit.lat hit.lon))
        3 5000).result = some data → data ≠ [] →
      (fetchDestinations city svc st).state =
        ⟨normalize data, jsNewSet ((normalize data).map Destination.category),
         jsMathCeilDiv (normalize data).length cardsPerPage⟩) := by
  refine ⟨fun hb => by simp [fetchDestinations, hb],
    fun hg => ?_, fun hit hg hr => ?_, fun hit hg hr => ?_,
    fun hit data hb hg hr hd => ?_⟩
  · by_cases hb : jsTrim city = "" <;> simp [fetchDestinations, hb, hg]
  · by_cases hb : jsTrim city = "" <;> simp [fetchDestinations, hb, hg, hr]
  · by_cases hb : jsTrim city = "" <;> simp [fetchDestinations, hb, hg, hr]
  · simp [fetchDestinations, hb, hg, hr, hd]

/-- Witness for claim C10: exhausted retries leave the initial state
unchanged. -/
theorem failed_resolution_preserves_state_witness :
    (fetchDestinations ("Paris") failingOverpassServices initialState).state =
      initialState :=
  (failed_resolution_preserves_state ("Paris") failingOverpassServices
    initialState).2.2.1 parisHit rfl rfl

end TravelApp
